import Mathlib

/-!
Verification of the entity / combat core of the game repository.

The Python source is shallowly embedded: machine floats are modelled as
exact rationals, in-place mutation as explicit state passing, and
Python exceptions (AttributeError, TypeError raised by the source on
some paths) as an explicit error component carried next to the state.
Randomness (random.random()) is modelled by passing the drawn value in
the unit interval explicitly, or a list of such draws for loops.

All definitions follow src/entities.py and src/combat.py.  The classes
embedded are the abstract Entity class of entities.py (the one
beginning at line 128, which Character and Player inherit from) and
CombatInstance of combat.py.  The hasattr probes the source performs
for Player-only methods (get_skill_level, get_cooldown_reduction) are
False on the embedded base class and are modelled accordingly.
-/

namespace Gra

/-- The twelve fields of the Stats dataclass (entities.py lines 32 to 46). -/
inductive StatName where
  | health | max_health | stamina | max_stamina | mana | max_mana
  | strength | defense | agility | intelligence
  | critical_chance | dodge_chance
deriving DecidableEq

/-- The Stats dataclass: numeric record of an actor's attributes.
Python floats and ints are both modelled as rationals. -/
structure Stats where
  health : ℚ
  max_health : ℚ
  stamina : ℚ
  max_stamina : ℚ
  mana : ℚ
  max_mana : ℚ
  strength : ℚ
  defense : ℚ
  agility : ℚ
  intelligence : ℚ
  critical_chance : ℚ
  dodge_chance : ℚ
deriving DecidableEq

/-- Default field values of the Stats dataclass (entities.py lines 35 to 46):
health=100, max_health=100, stamina=100, max_stamina=100, mana=0, max_mana=0,
strength=10, defense=5, agility=10, intelligence=10, critical_chance=0.05,
dodge_chance=0.05.  Note the default max_mana is 0. -/
def Stats.defaults : Stats :=
  { health := 100, max_health := 100, stamina := 100, max_stamina := 100
    mana := 0, max_mana := 0, strength := 10, defense := 5
    agility := 10, intelligence := 10
    critical_chance := 1/20, dodge_chance := 1/20 }

/-- getattr on a Stats object for a known field. -/
def Stats.get (s : Stats) : StatName → ℚ
  | .health => s.health | .max_health => s.max_health
  | .stamina => s.stamina | .max_stamina => s.max_stamina
  | .mana => s.mana | .max_mana => s.max_mana
  | .strength => s.strength | .defense => s.defense
  | .agility => s.agility | .intelligence => s.intelligence
  | .critical_chance => s.critical_chance | .dodge_chance => s.dodge_chance

/-- setattr on a Stats object for a known field. -/
def Stats.set (s : Stats) : StatName → ℚ → Stats
  | .health, v => { s with health := v }
  | .max_health, v => { s with max_health := v }
  | .stamina, v => { s with stamina := v }
  | .max_stamina, v => { s with max_stamina := v }
  | .mana, v => { s with mana := v }
  | .max_mana, v => { s with max_mana := v }
  | .strength, v => { s with strength := v }
  | .defense, v => { s with defense := v }
  | .agility, v => { s with agility := v }
  | .intelligence, v => { s with intelligence := v }
  | .critical_chance, v => { s with critical_chance := v }
  | .dodge_chance, v => { s with dodge_chance := v }

/-- Resolution of a Python attribute-name string to a Stats field; None
models hasattr(self, stat_name) being False. -/
def statOfName : String → Option StatName
  | "health" => some .health | "max_health" => some .max_health
  | "stamina" => some .stamina | "max_stamina" => some .max_stamina
  | "mana" => some .mana | "max_mana" => some .max_mana
  | "strength" => some .strength | "defense" => some .defense
  | "agility" => some .agility | "intelligence" => some .intelligence
  | "critical_chance" => some .critical_chance
  | "dodge_chance" => some .dodge_chance
  | _ => none

/-- Whether the field name starts with the max marker, as tested by
stat_name.startswith in modify_stat. -/
def StatName.isMax : StatName → Bool
  | .max_health | .max_stamina | .max_mana => true
  | _ => false

/-- The field that getattr(self, "max_" ++ stat_name, inf) finds, when it
exists.  Only health, stamina and mana have a max counterpart field;
for every other field the getattr default (positive infinity) applies,
modelled by None here. -/
def StatName.maxOf : StatName → Option StatName
  | .health => some .max_health
  | .stamina => some .max_stamina
  | .mana => some .max_mana
  | _ => none

/-- Stats.modify_stat (entities.py lines 48 to 64).  Unknown stat names
are a silent no-op (the hasattr guard).  Percentage modification
multiplies by (1 + value), additive adds value.  Fields starting with
the max marker are clamped below by 1; other fields are clamped into
the interval from 0 to their max counterpart (no upper clamp when the
counterpart field does not exist, matching the infinity default). -/
def Stats.modifyStat (s : Stats) (stat_name : String) (value : ℚ)
    (is_percentage : Bool := false) : Stats :=
  match statOfName stat_name with
  | none => s
  | some n =>
    let current_value := s.get n
    let new_value := if is_percentage then current_value * (1 + value)
                     else current_value + value
    if n.isMax then s.set n (max 1 new_value)
    else
      match n.maxOf with
      | some m => s.set n (min (max 0 new_value) (s.get m))
      | none => s.set n (max 0 new_value)

/-- Round-half-to-even of a rational, the rounding mode of the Python
built-in round. -/
def rhe (x : ℚ) : ℤ :=
  if Int.fract x < 1/2 then ⌊x⌋
  else if (1:ℚ)/2 < Int.fract x then ⌊x⌋ + 1
  else if ⌊x⌋ % 2 = 0 then ⌊x⌋ else ⌊x⌋ + 1

/-- round(x, 1) of the Python source: round to one decimal place. -/
def round1 (x : ℚ) : ℚ := (rhe (10 * x) : ℚ) / 10

/-- The StatusEffect dataclass (entities.py lines 66 to 88).  The
stat_modifiers dict is modelled as an association list in insertion
order. -/
structure StatusEffect where
  name : String
  type : String
  stat_modifiers : List (String × ℚ)
  duration : ℤ
  tick_interval : ℚ := 1
  last_tick : ℚ := 0
  description : String := ""
  is_permanent : Bool := false
  can_stack : Bool := false
  icon : String := ""
deriving DecidableEq

/-- StatusEffect.apply on a stats record: each (stat, modifier) pair is
passed to modify_stat with is_percentage true. -/
def StatusEffect.applyTo (e : StatusEffect) (s : Stats) : Stats :=
  e.stat_modifiers.foldl (fun st p => st.modifyStat p.1 p.2 true) s

/-- StatusEffect.remove on a stats record: the same loop with each
modifier negated. -/
def StatusEffect.removeFrom (e : StatusEffect) (s : Stats) : Stats :=
  e.stat_modifiers.foldl (fun st p => st.modifyStat p.1 (-p.2) true) s

/-- Sum of the values of the stat_modifiers dict, as computed by
sum(effect.stat_modifiers.values()) in the tick handler. -/
def StatusEffect.modSum (e : StatusEffect) : ℚ :=
  (e.stat_modifiers.map Prod.snd).sum

/-- First-occurrence removal by value, the behaviour of Python
list.remove (which compares with dataclass equality). -/
def eraseFirst {α : Type} [DecidableEq α] : List α → α → List α
  | [], _ => []
  | b :: bs, a => if b = a then bs else b :: eraseFirst bs a

/-- Replace the first occurrence of a value in a list; models an
in-place field assignment on an object aliased inside the list. -/
def replaceFirst {α : Type} [DecidableEq α] : List α → α → α → List α
  | [], _, _ => []
  | b :: bs, a, c => if b = a then c :: bs else b :: replaceFirst bs a c

/-- First-match lookup in an association list, the model of a Python
dict access (dicts cannot hold duplicate keys). -/
def lookupQ (k : String) : List (String × ℚ) → Option ℚ
  | [] => none
  | p :: ps => if p.1 = k then some p.2 else lookupQ k ps

/-- Character-list equality test of a leading segment, used for the
Python substring operator. -/
def leadsList : List Char → List Char → Bool
  | [], _ => true
  | _ :: _, [] => false
  | a :: as, b :: bs => a == b && leadsList as bs

/-- Containment of a character list inside another. -/
def hasSubList (p : List Char) : List Char → Bool
  | [] => leadsList p []
  | c :: cs => leadsList p (c :: cs) || hasSubList p cs

/-- The Python substring test needle in haystack. -/
def strContains (needle hay : String) : Bool :=
  hasSubList needle.toList hay.toList

/-- The Position dataclass (entities.py lines 17 to 30). -/
structure Position where
  x : ℚ
  y : ℚ
  z : ℚ := 0
deriving DecidableEq

/-- Squared euclidean distance between positions.  distance_to itself
returns the square root; every use in the embedded code compares the
distance against a bound r, encoded exactly as the squared comparison
together with the sign of r. -/
def Position.distSq (p q : Position) : ℚ :=
  (p.x - q.x) ^ 2 + (p.y - q.y) ^ 2 + (p.z - q.z) ^ 2

/-- The CombatStats class (entities.py lines 90 to 110). -/
structure CombatStats where
  damage_dealt : ℚ := 0
  damage_taken : ℚ := 0
  healing_done : ℚ := 0
  critical_hits : ℕ := 0
  dodges : ℕ := 0
  kills : ℕ := 0
  deaths : ℕ := 0
  longest_combat : ℚ := 0
  highest_damage : ℚ := 0
  highest_combo : ℕ := 0
deriving DecidableEq

/-- CombatStats.update_damage_stats (entities.py lines 104 to 110). -/
def CombatStats.updateDamageStats (c : CombatStats) (damage : ℚ)
    (is_critical : Bool) : CombatStats :=
  let c := { c with damage_dealt := c.damage_dealt + damage }
  let c := if c.highest_damage < damage
           then { c with highest_damage := damage } else c
  if is_critical then { c with critical_hits := c.critical_hits + 1 } else c

/-- The opaque inventory collaborator (spec section 6): equipment stat
modifiers, resource regeneration multipliers, and the equipped weapon
damage read by the combat handler. -/
structure Inventory where
  equipment_modifiers : List (String × ℚ)
  regen_modifiers : List (String × ℚ)
  equipped_weapon_damage : Option ℚ
deriving DecidableEq

/-- One ability entry as produced by Entity._load_abilities (entities.py
lines 183 to 197).  The cost dict is modelled by its stamina and mana
entries, the requirements dict by its level and stats entries (the
skills and items requirement checks are guarded in the source by a
hasattr probe that is False on the base class and by the inventory
being present).  The loaded dict never contains the keys damage_type,
visual_effects or skill_type. -/
structure Ability where
  name : String := ""
  damage : ℚ := 0
  cooldown : ℚ := 0
  costStamina : ℚ := 0
  costMana : ℚ := 0
  effects : List StatusEffect := []
  reqLevel : Option ℤ := none
  reqStats : List (String × ℚ) := []
  range : ℚ := 1
  area_of_effect : ℚ := 0
  cast_time : ℚ := 0
  description : String := ""
deriving DecidableEq

/-- State of the abstract Entity class of entities.py (the class
starting at line 128, inherited by Character and Player). -/
structure Entity where
  id : String := ""
  name : String := "Unknown Entity"
  description : String := ""
  level : ℤ := 1
  stats : Stats := Stats.defaults
  position : Position := { x := 0, y := 0, z := 0 }
  status_effects : List StatusEffect := []
  is_alive : Bool := true
  is_stunned : Bool := false
  is_invisible : Bool := false
  in_combat : Bool := false
  last_attack_time : ℚ := 0
  attack_cooldown : ℚ := 1
  combat_stats : CombatStats := {}
  inventory : Option Inventory := none
  gold : ℚ := 0
  abilities : List (String × Ability) := []
  resistances : List (String × ℚ) := []
  cooldowns : List (String × ℚ) := []
deriving DecidableEq

/-- The current_stats property (entities.py lines 199 to 233): a copy of
the base stats, then for every active effect each modifier multiplies
the matching field by (1 + modifier), then equipment modifiers are
added.  A modifier whose name is not a Stats field leaves every field
unchanged (the source setattr then only creates a fresh dynamic
attribute on the copy). -/
def Entity.currentStats (s : Entity) : Stats :=
  let modified := s.status_effects.foldl (fun st e =>
    e.stat_modifiers.foldl (fun st2 p =>
      match statOfName p.1 with
      | some n => st2.set n (st2.get n * (1 + p.2))
      | none => st2) st) s.stats
  match s.inventory with
  | none => modified
  | some inv => inv.equipment_modifiers.foldl (fun st2 p =>
      match statOfName p.1 with
      | some n => st2.set n (st2.get n + p.2)
      | none => st2) modified

/-- The dodge probability computed inside _try_dodge (entities.py lines
396 to 408): current dodge chance plus every dodge_bonus effect
modifier, capped at 0.75. -/
def Entity.dodgeChanceUsed (s : Entity) : ℚ :=
  min (3/4) (s.status_effects.foldl (fun acc e =>
    match lookupQ "dodge_bonus" e.stat_modifiers with
    | some b => acc + b
    | none => acc) s.currentStats.dodge_chance)

/-- Outcome of _try_dodge for a given uniform draw. -/
def Entity.tryDodge (s : Entity) (roll : ℚ) : Bool :=
  decide (roll < s.dodgeChanceUsed)

/-- The critical probability computed inside _is_critical_hit
(entities.py lines 455 to 467), capped at 0.75. -/
def Entity.critChanceUsed (s : Entity) : ℚ :=
  min (3/4) (s.status_effects.foldl (fun acc e =>
    match lookupQ "crit_chance_bonus" e.stat_modifiers with
    | some b => acc + b
    | none => acc) s.currentStats.critical_chance)

/-- Entity._calculate_damage (entities.py lines 410 to 426): resistance
reduction, damage_taken_modifier multipliers, defense mitigation, then
round(max(0, damage), 1). -/
def Entity.calculateDamage (s : Entity) (base_damage : ℚ)
    (damage_type : String) : ℚ :=
  let resistance := (lookupQ damage_type s.resistances).getD 0
  let damage := base_damage * (1 - resistance)
  let damage := s.status_effects.foldl (fun d e =>
    match lookupQ "damage_taken_modifier" e.stat_modifiers with
    | some m => d * (1 + m)
    | none => d) damage
  let defense_reduction := s.currentStats.defense / (s.currentStats.defense + 100)
  let damage := damage * (1 - defense_reduction)
  round1 (max 0 damage)

/-- Entity._remove_effect (entities.py lines 335 to 341): revert the
modifiers, then remove the first equal list entry; a ValueError from an
absent entry is swallowed after the modifiers were already reverted. -/
def Entity.removeEffect (s : Entity) (e : StatusEffect) : Entity :=
  { s with stats := e.removeFrom s.stats
           status_effects := eraseFirst s.status_effects e }

/-- Entity.die (entities.py lines 546 to 563): idempotent; zeroes
health, clears the alive flag, counts the death, then strips every
non-permanent status effect by iterating a copy of the effect list.
The death-trigger hook is a no-op on the base class. -/
def Entity.die (s : Entity) : Entity :=
  if s.is_alive = false then s
  else
    let s1 := { s with is_alive := false
                       stats := { s.stats with health := 0 }
                       combat_stats := { s.combat_stats with
                                         deaths := s.combat_stats.deaths + 1 } }
    s1.status_effects.foldl
      (fun st e => if e.is_permanent then st else st.removeEffect e) s1

/-- Entity.take_damage (entities.py lines 364 to 394).  The uniform draw
for the dodge roll is the last argument; the returned triple is
(actual damage, dodged, critical). -/
def Entity.takeDamage (s : Entity) (damage : ℚ) (damage_type : String)
    (roll : ℚ) : Entity × (ℚ × Bool × Bool) :=
  if s.is_alive = false then (s, (0, false, false))
  else if s.tryDodge roll then
    ({ s with combat_stats := { s.combat_stats with
                                dodges := s.combat_stats.dodges + 1 } },
     (0, true, false))
  else
    let actual := s.calculateDamage damage damage_type
    let s1 := { s with
      stats := { s.stats with health := max 0 (s.stats.health - actual) }
      combat_stats := { s.combat_stats with
                        damage_taken := s.combat_stats.damage_taken + actual } }
    let s2 := if s1.stats.health ≤ 0 then s1.die else s1
    (s2, (actual, false, false))

/-- The product of all healing_received_modifier factors applied inside
Entity.heal. -/
def Entity.healingModifier (s : Entity) : ℚ :=
  s.status_effects.foldl (fun acc e =>
    match lookupQ "healing_received_modifier" e.stat_modifiers with
    | some m => acc * (1 + m)
    | none => acc) 1

/-- Entity.heal (entities.py lines 509 to 544): no-op when dead,
otherwise raises health by the modified amount clamped above by
max_health (there is no lower clamp), returning the delta. -/
def Entity.heal (s : Entity) (amount : ℚ) : Entity × ℚ :=
  if s.is_alive = false then (s, 0)
  else
    let actual_healing := amount * s.healingModifier
    let old_health := s.stats.health
    let new_health := min s.stats.max_health (old_health + actual_healing)
    let healing_done := new_health - old_health
    ({ s with
       stats := { s.stats with health := new_health }
       combat_stats := { s.combat_stats with
                         healing_done := s.combat_stats.healing_done + healing_done } },
     healing_done)

/-- Entity.resurrect (entities.py lines 570 to 582): no-op when alive,
otherwise restores the alive flag, sets health to the given fraction of
max_health and stamina and mana to half their maxima. -/
def Entity.resurrect (s : Entity) (health_percentage : ℚ := 1/2) : Entity :=
  if s.is_alive then s
  else
    { s with is_alive := true
             stats := { s.stats with
                        health := s.stats.max_health * health_percentage
                        stamina := s.stats.max_stamina * (1/2)
                        mana := s.stats.max_mana * (1/2) } }

/-- Entity._get_critical_multiplier (entities.py lines 469 to 484): base
2.0 plus crit_damage_bonus effect modifiers; the skill branch is
guarded by a hasattr probe that is False on the base class. -/
def Entity.critMultiplier (s : Entity) : ℚ :=
  s.status_effects.foldl (fun acc e =>
    match lookupQ "crit_damage_bonus" e.stat_modifiers with
    | some b => acc + b
    | none => acc) 2

/-- Entity._modify_outgoing_damage (entities.py lines 486 to 507):
strength bonus for the physical type, intelligence bonus when the type
contains the magical marker, plus additive damage_dealt_modifier
effects. -/
def Entity.modifyOutgoingDamage (s : Entity) (damage : ℚ)
    (damage_type : String) : ℚ :=
  let damage_bonus : ℚ := 1
  let damage_bonus :=
    if damage_type = "physical" then damage_bonus + s.currentStats.strength / 100
    else if strContains "magical" damage_type then
      damage_bonus + s.currentStats.intelligence / 100
    else damage_bonus
  let damage_bonus := s.status_effects.foldl (fun acc e =>
    match lookupQ "damage_dealt_modifier" e.stat_modifiers with
    | some m => acc + m
    | none => acc) damage_bonus
  damage * damage_bonus

/-- Entity.deal_damage (entities.py lines 428 to 453).  Draws: the
attacker critical roll and the target dodge roll.  Returns the two
updated entities (attacker, target) and (actual, dodged, critical).
When the attack is critical the source increments critical_hits twice:
once directly and once inside update_damage_stats. -/
def Entity.dealDamage (s target : Entity) (base_damage : ℚ)
    (damage_type : String) (critRoll dodgeRoll : ℚ) :
    (Entity × Entity) × (ℚ × Bool × Bool) :=
  if target.is_alive = false || s.is_alive = false then
    ((s, target), (0, false, false))
  else
    let is_critical := decide (critRoll < s.critChanceUsed)
    let base_damage := if is_critical then base_damage * s.critMultiplier
                       else base_damage
    let s1 := if is_critical then
        { s with combat_stats := { s.combat_stats with
                                   critical_hits := s.combat_stats.critical_hits + 1 } }
      else s
    let damage := s1.modifyOutgoingDamage base_damage damage_type
    let tr := target.takeDamage damage damage_type dodgeRoll
    let actual := tr.2.1
    let was_dodged := tr.2.2.1
    let s2 := { s1 with
      combat_stats := s1.combat_stats.updateDamageStats actual is_critical }
    ((s2, tr.1), (actual, was_dodged, is_critical))

/-- Entity.add_status_effect (entities.py lines 343 to 360): a
non-stacking effect whose name is already present either replaces the
weaker existing one (reverting it, applying the new one) or merely
extends the existing duration to the larger value; otherwise the effect
is applied and appended. -/
def Entity.addStatusEffect (s : Entity) (effect : StatusEffect) : Entity :=
  let freshApply : Entity :=
    { s with stats := effect.applyTo s.stats
             status_effects := s.status_effects ++ [effect] }
  if effect.can_stack then freshApply
  else
    match s.status_effects.find? (fun ex => ex.name == effect.name) with
    | none => freshApply
    | some existing =>
      if existing.modSum < effect.modSum then
        let s1 := { s with stats := existing.removeFrom s.stats
                           status_effects := eraseFirst s.status_effects existing }
        { s1 with stats := effect.applyTo s1.stats
                  status_effects := s1.status_effects ++ [effect] }
      else
        { s with status_effects := replaceFirst s.status_effects existing
                   { existing with duration := max existing.duration effect.duration } }

/-- Entity.get_regeneration_modifiers (entities.py lines 296 to 317)
returning the (health, stamina, mana) multipliers.  None models the
exception paths of the source: an effect whose stat_modifiers dict has
a regeneration key makes the source subscript a float (TypeError), and
an equipment regeneration entry for an unknown resource name raises a
KeyError on the modifiers dict. -/
def Entity.getRegenerationModifiers (s : Entity) : Option (ℚ × ℚ × ℚ) :=
  if s.status_effects.any (fun e => (lookupQ "regeneration" e.stat_modifiers).isSome)
  then none
  else
    match s.inventory with
    | none => some (1, 1, 1)
    | some inv =>
      inv.regen_modifiers.foldl (fun acc p =>
        match acc with
        | none => none
        | some (h, st, m) =>
          if p.1 = "health" then some (h * (1 + p.2), st, m)
          else if p.1 = "stamina" then some (h, st * (1 + p.2), m)
          else if p.1 = "mana" then some (h, st, m * (1 + p.2))
          else none) (some (1, 1, 1))

/-- Entity._update_resources (entities.py lines 281 to 294): regenerate
stamina by 5 and mana by 2 per step, scaled by the regeneration
multipliers and clamped above by the maxima.  The error component is
set when get_regeneration_modifiers raises. -/
def Entity.updateResources (s : Entity) : Entity × Option String :=
  match s.getRegenerationModifiers with
  | none => (s, some "TypeError/KeyError in get_regeneration_modifiers")
  | some (_, stamina_mod, mana_mod) =>
    let stats := s.stats
    let stats := if stats.stamina < stats.max_stamina then
        { stats with stamina := min stats.max_stamina (stats.stamina + 5 * stamina_mod) }
      else stats
    let stats := if stats.mana < stats.max_mana then
        { stats with mana := min stats.max_mana (stats.mana + 2 * mana_mod) }
      else stats
    ({ s with stats := stats }, none)

/-- The resource_regen arm of _apply_effect_tick (entities.py lines 327
to 333): each named resource with a Stats field is raised by the value,
clamped by its max counterpart; getattr for the max counterpart has no
default, so a resource without one raises AttributeError (the error
component).  Unknown resource names fail the hasattr guard and are
skipped. -/
def regenTickFold (st : Stats) : List (String × ℚ) → Stats × Option String
  | [] => (st, none)
  | p :: ps =>
    match statOfName p.1 with
    | none => regenTickFold st ps
    | some n =>
      match n.maxOf with
      | none => (st, some "AttributeError: no max_ counterpart")
      | some m => regenTickFold (st.set n (min (st.get m) (st.get n + p.2))) ps

/-- Entity._apply_effect_tick (entities.py lines 319 to 333): a dot
deals the summed modifiers as magical damage (consuming one dodge
draw), a hot heals by the sum, resource_regen restores resources, any
other type does nothing. -/
def Entity.applyEffectTick (s : Entity) (e : StatusEffect) (rolls : List ℚ) :
    Entity × List ℚ × Option String :=
  if e.type = "dot" then
    ((s.takeDamage e.modSum "magical" (rolls.headD 1)).1, rolls.tail, none)
  else if e.type = "hot" then
    ((s.heal e.modSum).1, rolls, none)
  else if e.type = "resource_regen" then
    let r := regenTickFold s.stats e.stat_modifiers
    ({ s with stats := r.1 }, rolls, r.2)
  else (s, rolls, none)

/-- The loop body of Entity._update_status_effects (entities.py lines
263 to 279), modelled with CPython iteration semantics: the for loop
walks the live self.status_effects list by index while an inner die()
call (from a lethal dot tick) may strip entries from that same list,
and the in-place mutations of the iterated effect object (duration
decrement before the tick, last_tick assignment after it) are written
back into the live list.  The accumulator is the local active_effects
list; the rolls list supplies dodge draws for dot ticks; the error
component aborts the iteration like a propagating exception.  The fuel
argument only bounds the recursion: no step of the body ever lengthens
the live list (ticks can only strip effects, the two writebacks
preserve length), so with fuel equal to the initial list length the
index test, not the fuel, always ends the iteration, exactly as in the
source. -/
def updateEffectsLoop (t : ℚ) : ℕ → ℕ → Entity → List StatusEffect →
    List ℚ → Entity × List StatusEffect × List ℚ × Option String
  | 0, _, s, acc, rolls => (s, acc, rolls, none)
  | fuel + 1, i, s, acc, rolls =>
    if h : i < s.status_effects.length then
      let e := s.status_effects.get ⟨i, h⟩
      if e.is_permanent || decide (0 < e.duration) then
        let e1 := if e.is_permanent then e else { e with duration := e.duration - 1 }
        let s1 := { s with status_effects := s.status_effects.set i e1 }
        if e1.tick_interval ≤ t - e1.last_tick then
          let r := s1.applyEffectTick e1 rolls
          if r.2.2.isSome then (r.1, acc, r.2.1, r.2.2)
          else
            let e2 := { e1 with last_tick := t }
            let s3 := { r.1 with status_effects := replaceFirst r.1.status_effects e1 e2 }
            updateEffectsLoop t fuel (i + 1) s3 (acc ++ [e2]) r.2.1
        else
          updateEffectsLoop t fuel (i + 1) s1 (acc ++ [e1]) rolls
      else
        let s1 := { s with stats := e.removeFrom s.stats }
        updateEffectsLoop t fuel (i + 1) s1 acc rolls
    else (s, acc, rolls, none)

/-- Entity._update_status_effects: run the loop from index 0 with an
empty active list, then (when no exception escaped) overwrite the
effect list with the accumulated active effects. -/
def Entity.updateStatusEffects (s : Entity) (t : ℚ) (rolls : List ℚ) :
    Entity × List ℚ × Option String :=
  let r := updateEffectsLoop t s.status_effects.length 0 s [] rolls
  if r.2.2.2.isSome then (r.1, r.2.2.1, r.2.2.2)
  else ({ r.1 with status_effects := r.2.1 }, r.2.2.1, none)

/-- Entity.update (entities.py lines 235 to 252): status-effect update,
resource regeneration, death check, then the call to the undefined
method _update_cooldowns, which always raises AttributeError (no class
in the hierarchy defines it), so every completed call ends in the error
state after the death check has run. -/
def Entity.update (s : Entity) (game_time : ℚ) (rolls : List ℚ) :
    Entity × Option String :=
  let r := s.updateStatusEffects game_time rolls
  if r.2.2.isSome then (r.1, r.2.2)
  else
    let r2 := r.1.updateResources
    if r2.2.isSome then r2
    else
      let s2 := r2.1
      let s3 := if s2.stats.health ≤ 0 ∧ s2.is_alive = true then s2.die else s2
      (s3, some "AttributeError: Entity has no attribute _update_cooldowns")

/-- Entity._is_on_cooldown (entities.py lines 746 to 748); the wall
clock read time.time() of the source is passed in as now. -/
def Entity.isOnCooldown (s : Entity) (ability_id : String) (now : ℚ) : Bool :=
  match lookupQ ability_id s.cooldowns with
  | some expiry => decide (now < expiry)
  | none => false

/-- Entity._check_ability_requirements (entities.py lines 704 to 730):
level and stat requirements; the skills clause is dead (no class
defines get_skill_level, so its hasattr guard fails) and the items
clause is read through the opaque inventory, not carried by the
embedded ability records.  A stat name that is not a current_stats
field reads as 0 through the getattr default. -/
def Entity.checkAbilityRequirements (s : Entity) (a : Ability) : Bool :=
  (match a.reqLevel with
   | some lv => decide (lv ≤ s.level)
   | none => true) &&
  a.reqStats.all (fun p =>
    match statOfName p.1 with
    | some n => decide (p.2 ≤ s.currentStats.get n)
    | none => decide (p.2 ≤ 0))

/-- Entity.can_use_ability (entities.py lines 679 to 702).  The cooldown
failure message of the source formats the remaining seconds; the text
is abbreviated here since no embedded result inspects it. -/
def Entity.canUseAbility (s : Entity) (ability_id : String) (now : ℚ) :
    Bool × String :=
  match s.abilities.find? (fun p => p.1 == ability_id) with
  | none => (false, "Nieznana zdolność!")
  | some pa =>
    if s.isOnCooldown ability_id now then (false, "Zdolność odnowi się!")
    else if s.stats.stamina < pa.2.costStamina then
      (false, "Niewystarczająca stamina!")
    else if s.stats.mana < pa.2.costMana then
      (false, "Niewystarczająca mana!")
    else if s.checkAbilityRequirements pa.2 = false then
      (false, "Nie spełniasz wymagań tej zdolności!")
    else (true, "")

/-- Entity._is_in_ability_range (entities.py lines 732 to 739): every
embedded entity has a position, so the check is the distance test
against the ability range, encoded on squares (distance_to is a square
root, and the root is bounded by r exactly when r is non-negative and
the squared distance is bounded by r squared). -/
def Entity.isInAbilityRange (s : Entity) (target : Entity) (a : Ability) : Bool :=
  decide (0 ≤ a.range ∧ s.position.distSq target.position ≤ a.range ^ 2)

/-- Python dict assignment d[k] = v on a string-keyed association list. -/
def dictSet : List (String × ℚ) → String → ℚ → List (String × ℚ)
  | [], k, v => [(k, v)]
  | p :: ps, k, v => if p.1 = k then (k, v) :: ps else p :: dictSet ps k v

/-- Entity.use_ability (entities.py lines 586 to 677).  Draws: the
attacker critical roll and the target dodge roll for the primary hit.
Dead source branches on the embedded entities: the skill-damage scaling
(hasattr get_skill_level is False everywhere), the area-of-effect loop
(the base _get_targets_in_range returns an empty list), the
visual_effects block (the loaded ability dict never has that key) and
the cooldown-reduction factor (hasattr get_cooldown_reduction is False
everywhere).  The returned effect descriptor dicts are abbreviated to
their type tags; success, message text and list emptiness follow the
source.  Ordering as in the source: the range check precedes the
resource deduction, a dodged primary hit returns failure after the
deduction with no cooldown set. -/
def Entity.useAbility (s : Entity) (ability_id : String)
    (target : Option Entity) (now critRoll dodgeRoll : ℚ) :
    (Entity × Option Entity) × (Bool × String × List String) :=
  let cu := s.canUseAbility ability_id now
  if cu.1 = false then ((s, target), (false, cu.2, []))
  else
    let a := ((s.abilities.find? (fun p => p.1 == ability_id)).getD ("", {})).2
    match target with
    | some tgt =>
      if s.isInAbilityRange tgt a = false then
        ((s, some tgt), (false, "Cel jest poza zasięgiem!", []))
      else
        let s1 := { s with stats := { s.stats with
                      stamina := s.stats.stamina - a.costStamina
                      mana := s.stats.mana - a.costMana } }
        if 0 < a.damage then
          let dd := s1.dealDamage tgt a.damage "physical" critRoll dodgeRoll
          let s2 := dd.1.1
          let tgt1 := dd.1.2
          if dd.2.2.1 then
            ((s2, some tgt1), (false, tgt1.name ++ " uniknął " ++ a.name ++ "!", []))
          else
            let message := if dd.2.2.2 then "Użyto (Krytyczne!)" else "Użyto"
            let tgt2 := a.effects.foldl (fun tg e => tg.addStatusEffect e) tgt1
            let s3 := { s2 with cooldowns := dictSet s2.cooldowns ability_id (now + a.cooldown) }
            ((s3, some tgt2),
             (true, message, "damage" :: a.effects.map (fun _ => "effect")))
        else
          let tgt2 := a.effects.foldl (fun tg e => tg.addStatusEffect e) tgt
          let s3 := { s1 with cooldowns := dictSet s1.cooldowns ability_id (now + a.cooldown) }
          ((s3, some tgt2), (true, "", a.effects.map (fun _ => "effect")))
    | none =>
      let s1 := { s with stats := { s.stats with
                    stamina := s.stats.stamina - a.costStamina
                    mana := s.stats.mana - a.costMana } }
      let s2 := a.effects.foldl (fun tg e => tg.addStatusEffect e) s1
      let s3 := { s2 with cooldowns := dictSet s2.cooldowns ability_id (now + a.cooldown) }
      ((s3, none), (true, "", a.effects.map (fun _ => "effect")))

/-- The per-combat transient player state dict of CombatInstance
(combat.py lines 114 to 121). -/
structure PlayerStatus where
  stamina : ℚ := 100
  defense_bonus : ℚ := 0
  status_effects : List StatusEffect := []
  combo_counter : ℤ := 0
  dodge_chance : ℚ
  crit_chance : ℚ
deriving DecidableEq

/-- The per-combat transient enemy state dict (combat.py lines 123 to
128); the aggression level is the uniform draw made at construction. -/
structure EnemyStatus where
  defense_bonus : ℚ := 0
  status_effects : List StatusEffect := []
  aggression_level : ℚ
deriving DecidableEq

/-- One combat log entry (combat.py lines 311 to 318). -/
structure LogEntry where
  message : String
  type : String
  turn : ℤ
  time : ℚ
deriving DecidableEq

/-- State of CombatInstance (combat.py lines 98 to 128).  The source
constructor never creates a combat_stats attribute, although
_process_turn, _handle_player_attack and get_state read one; those
reads raise AttributeError and are modelled by error results. -/
structure CombatInstance where
  combat_id : String := ""
  player : Entity
  enemy : Entity
  start_time : ℚ := 0
  end_time : Option ℚ := none
  turn : ℤ := 1
  last_action_time : ℚ := 0
  combat_log : List LogEntry := []
  active_effects : List StatusEffect := []
  ability_cooldowns : List (String × ℚ) := []
  player_status : PlayerStatus
  enemy_status : EnemyStatus
deriving DecidableEq

/-- The CombatInstance constructor (combat.py lines 101 to 128), with
the global game_time read and the uniform aggression draw passed in. -/
def mkCombat (player enemy : Entity) (combat_id : String)
    (game_time aggression : ℚ) : CombatInstance :=
  { combat_id := combat_id, player := player, enemy := enemy
    start_time := game_time, last_action_time := game_time
    player_status := { dodge_chance := player.stats.dodge_chance
                       crit_chance := player.stats.critical_chance }
    enemy_status := { aggression_level := aggression } }

/-- CombatInstance.is_finished (combat.py lines 274 to 277). -/
def CombatInstance.isFinished (c : CombatInstance) : Bool :=
  !c.player.is_alive || !c.enemy.is_alive || c.end_time.isSome

/-- Which participant a combat query returns. -/
inductive Winner where
  | player
  | enemy
deriving DecidableEq

/-- CombatInstance.get_winner (combat.py lines 279 to 289). -/
def CombatInstance.getWinner (c : CombatInstance) : Option Winner :=
  if c.isFinished = false then none
  else if c.enemy.is_alive = false then some .player
  else if c.player.is_alive = false then some .enemy
  else none

/-- CombatInstance.add_combat_log (combat.py lines 311 to 318); the
global game_time read is passed in. -/
def CombatInstance.addCombatLog (c : CombatInstance)
    (message message_type : String) (game_time : ℚ) : CombatInstance :=
  { c with combat_log := c.combat_log ++
      [{ message := message, type := message_type, turn := c.turn, time := game_time }] }

/-- Result of a combat action handler: the ordinary (accepted, message)
pair, or the text of an escaping Python exception. -/
inductive ActionOutcome where
  | ok : Bool → String → ActionOutcome
  | exn : String → ActionOutcome
deriving DecidableEq

/-- CombatInstance._handle_player_attack (combat.py lines 225 to 258).
The critical roll draw is passed in.  The session object has no
combat_stats attribute, so the critical branch raises AttributeError
before any mutation, and the non-critical path raises it right after
the enemy health subtraction; the combo update, the combo bonus
multiplication and all logging below those lines are unreachable. -/
def CombatInstance.handlePlayerAttack (c : CombatInstance) (critRoll : ℚ) :
    CombatInstance × ActionOutcome :=
  let base_damage := c.player.stats.strength +
    (match c.player.inventory with
     | some inv => inv.equipped_weapon_damage.getD 0
     | none => 0)
  if critRoll < c.player_status.crit_chance then
    (c, .exn "AttributeError: CombatInstance has no attribute combat_stats")
  else
    let final_damage := max 1 (base_damage -
      (c.enemy.stats.defense + c.enemy_status.defense_bonus))
    let c1 := { c with enemy := { c.enemy with
      stats := { c.enemy.stats with health := c.enemy.stats.health - final_damage } } }
    (c1, .exn "AttributeError: CombatInstance has no attribute combat_stats")

/-- CombatInstance._handle_player_defend (combat.py lines 260 to 272):
no class defines get_skill_level, so the bonus is always 5; combat-only
stamina is restored by 20 up to 100 and the stance is logged. -/
def CombatInstance.handlePlayerDefend (c : CombatInstance) (game_time : ℚ) :
    CombatInstance × ActionOutcome :=
  let defense_bonus : ℚ := 5
  let c1 := { c with player_status := { c.player_status with
    defense_bonus := defense_bonus
    stamina := min 100 (c.player_status.stamina + 20) } }
  (c1.addCombatLog "Przyjmujesz postawę obronną (+5 do obrony)" "info" game_time,
   .ok true "Przyjęto postawę obronną!")

/-- CombatInstance.handle_player_action (combat.py lines 210 to 223).
The ability, item and escape branches call methods that no class
defines (_handle_player_ability, _handle_use_item,
_handle_escape_attempt), so they raise AttributeError without mutating
anything. -/
def CombatInstance.handlePlayerAction (c : CombatInstance)
    (action_type : String) (critRoll game_time : ℚ) :
    CombatInstance × ActionOutcome :=
  if action_type = "attack" then c.handlePlayerAttack critRoll
  else if action_type = "defend" then c.handlePlayerDefend game_time
  else if action_type = "use_ability" then
    (c, .exn "AttributeError: CombatInstance has no attribute _handle_player_ability")
  else if action_type = "use_item" then
    (c, .exn "AttributeError: CombatInstance has no attribute _handle_use_item")
  else if action_type = "escape" then
    (c, .exn "AttributeError: CombatInstance has no attribute _handle_escape_attempt")
  else (c, .ok false "Nieznana akcja!")

/-- CombatInstance.update (combat.py lines 130 to 146): a finished
session returns immediately without touching any state; an unfinished
one immediately calls the undefined _update_status_effects method and
raises AttributeError, also before any mutation. -/
def CombatInstance.update (c : CombatInstance) (game_time : ℚ) :
    CombatInstance × Option String :=
  if c.isFinished then (c, none)
  else (c, some "AttributeError: CombatInstance has no attribute _update_status_effects")

/-- CombatInstance.end (combat.py lines 291 to 309): records the end
time from the global clock and clears both in_combat flags, then calls
the undefined _clear_combat_effects method, so the call raises
AttributeError before the closing log entry. -/
def CombatInstance.endSession (c : CombatInstance) (game_time : ℚ) :
    CombatInstance × Option String :=
  let c1 := { c with end_time := some game_time
                     player := { c.player with in_combat := false }
                     enemy := { c.enemy with in_combat := false } }
  (c1, some "AttributeError: CombatInstance has no attribute _clear_combat_effects")

/-- A dead sample actor used by witnesses. -/
def deadEntity : Entity :=
  { id := "dead", name := "Dead"
    is_alive := false
    stats := { Stats.defaults with health := 0 } }

/-- A live sample actor used by witnesses. -/
def hero : Entity := { id := "hero", name := "Hero" }

/-- A session still open: both participants alive, no end time. -/
def combatOpen : CombatInstance := mkCombat hero { id := "orc" } "c0" 0 1

/-- A finished session in which both participants died. -/
def combatBothDead : CombatInstance :=
  mkCombat deadEntity { deadEntity with id := "orc" } "c1" 0 1

/-- A finished session in which only the player died. -/
def combatPlayerDead : CombatInstance :=
  mkCombat deadEntity { id := "orc" } "c2" 0 1

/-- A session ended externally with both participants alive. -/
def combatEndedEarly : CombatInstance :=
  { mkCombat hero { id := "orc" } "c3" 0 1 with end_time := some 5 }

/-- An actor buffed by one large percentage effect on both chance stats. -/
def buffedEntity : Entity :=
  Entity.addStatusEffect hero
    { name := "eagle", type := "buff"
      stat_modifiers := [("dodge_chance", 100), ("critical_chance", 100)]
      duration := 5 }

/-- A single-modifier effect used by the C2 witness. -/
def c2WitnessEffect : StatusEffect :=
  { name := "bless", type := "buff"
    stat_modifiers := [("strength", 1/2)], duration := 3 }

/-- A full-strength effect used by the C2 counterexample. -/
def c2Effect : StatusEffect :=
  { name := "surge", type := "buff"
    stat_modifiers := [("strength", 1)], duration := 3 }

/-- A session whose combo counter already stands at 2, one short of the
combo threshold. -/
def c9Combat : CombatInstance :=
  { mkCombat hero { id := "orc" } "c9" 0 1 with
    player_status := { dodge_chance := 1/20, crit_chance := 1/20, combo_counter := 2 } }

/-- The pre-defense damage of _calculate_damage: base damage after the
resistance reduction and the damage_taken_modifier multipliers, before
the defense mitigation and the rounding. -/
def calcPre (s : Entity) (base_damage : ℚ) (damage_type : String) : ℚ :=
  s.status_effects.foldl (fun d e =>
    match lookupQ "damage_taken_modifier" e.stat_modifiers with
    | some m => d * (1 + m)
    | none => d)
    (base_damage * (1 - (lookupQ damage_type s.resistances).getD 0))

/-- A damaging ability costing 30 stamina with range 1, as loaded by
_load_abilities. -/
def c8Ability : Ability :=
  { name := "strike", damage := 5, cooldown := 3, costStamina := 30, range := 1 }

/-- A caster knowing the strike ability. -/
def c8Caster : Entity := { hero with abilities := [("strike", c8Ability)] }

/-- An adjacent target (distance 0). -/
def c8Target : Entity := { id := "orc" }

/-- A target standing at distance 10, outside the range-1 ability. -/
def c8FarTarget : Entity :=
  { id := "farorc", position := { x := 10, y := 0, z := 0 } }

/-- The death invariant of the claim: alive exactly when health is
positive. -/
def AliveInv (s : Entity) : Prop := s.is_alive = true ↔ 0 < s.stats.health

/-- A status effect that triggers neither the resource_regen tick arm
nor the regeneration-key crash of get_regeneration_modifiers. -/
def Safe (e : StatusEffect) : Prop :=
  e.type ≠ "resource_regen" ∧ lookupQ "regeneration" e.stat_modifiers = none

/-- The working invariant threaded through the update proof: positive
max health, a dead actor has health exactly 0, every active effect is
safe, and no inventory (whose regeneration entries could raise a
KeyError inside get_regeneration_modifiers). -/
def Wsafe (s : Entity) : Prop :=
  0 < s.stats.max_health ∧ (s.is_alive = false → s.stats.health = 0) ∧
  (∀ e ∈ s.status_effects, Safe e) ∧ s.inventory = none

/-- An alive actor at 10 health. -/
def c1Actor : Entity := { hero with stats := { Stats.defaults with health := 10 } }

theorem eraseFirst_length_le {α : Type} [DecidableEq α] (l : List α) (a : α) :
    (eraseFirst l a).length ≤ l.length := by
  induction l with
  | nil => simp [eraseFirst]
  | cons b bs ih =>
    simp only [eraseFirst]
    split
    · simp
    · simpa using Nat.succ_le_succ ih

theorem replaceFirst_length {α : Type} [DecidableEq α] (l : List α) (a c : α) :
    (replaceFirst l a c).length = l.length := by
  induction l with
  | nil => simp [replaceFirst]
  | cons b bs ih =>
    simp only [replaceFirst]
    split
    · simp
    · simpa using ih

theorem Stats.get_set_self (s : Stats) (n : StatName) (v : ℚ) :
    (s.set n v).get n = v := by
  cases n <;> rfl

theorem Stats.get_set_ne (s : Stats) (n m : StatName) (v : ℚ) (h : m ≠ n) :
    (s.set n v).get m = s.get m := by
  cases n <;> cases m <;> first | rfl | exact absurd rfl h

/-- C5: on a dead actor, take_damage returns (0, false, false),
deal_damage returns (0, false, false) when either side is dead, and
heal returns 0, in every case leaving all states untouched and raising
nothing. -/
theorem C5_dead_actor_silent_noop :
    (∀ (s : Entity) (d : ℚ) (dt : String) (roll : ℚ), s.is_alive = false →
        s.takeDamage d dt roll = (s, (0, false, false))) ∧
    (∀ (s t : Entity) (d : ℚ) (dt : String) (cr dr : ℚ),
        s.is_alive = false ∨ t.is_alive = false →
        s.dealDamage t d dt cr dr = ((s, t), (0, false, false))) ∧
    (∀ (s : Entity) (a : ℚ), s.is_alive = false → s.heal a = (s, 0)) := by
  refine ⟨?_, ?_, ?_⟩
  · intro s d dt roll h
    simp [Entity.takeDamage, h]
  · intro s t d dt cr dr h
    rcases h with h | h <;> simp [Entity.dealDamage, h]
  · intro s a h
    simp [Entity.heal, h]

/-- Witness for C5 at a concrete dead actor. -/
theorem C5_witness :
    deadEntity.takeDamage 50 "physical" (9/10) = (deadEntity, (0, false, false)) ∧
    deadEntity.dealDamage hero 50 "physical" (9/10) (9/10) =
      ((deadEntity, hero), (0, false, false)) ∧
    deadEntity.heal 30 = (deadEntity, 0) :=
  ⟨C5_dead_actor_silent_noop.1 deadEntity 50 "physical" (9/10) (by decide),
   C5_dead_actor_silent_noop.2.1 deadEntity hero 50 "physical" (9/10) (9/10)
     (Or.inl (by decide)),
   C5_dead_actor_silent_noop.2.2 deadEntity 30 (by decide)⟩

/-- C10: get_winner is None on an unfinished session; on a finished one
it checks the enemy first (so it returns the player when the enemy is
dead, even if both are), returns the enemy when only the player is
dead, and None when both still live after an external end. -/
theorem C10_getWinner_spec (c : CombatInstance) :
    (c.isFinished = false → c.getWinner = none) ∧
    (c.isFinished = true →
      (c.enemy.is_alive = false → c.getWinner = some .player) ∧
      (c.enemy.is_alive = true → c.player.is_alive = false →
        c.getWinner = some .enemy) ∧
      (c.enemy.is_alive = true → c.player.is_alive = true →
        c.getWinner = none)) := by
  refine ⟨fun h => by simp [CombatInstance.getWinner, h], fun h => ⟨?_, ?_, ?_⟩⟩
  · intro he
    simp [CombatInstance.getWinner, h, he]
  · intro he hp
    simp [CombatInstance.getWinner, h, he, hp]
  · intro he hp
    simp [CombatInstance.getWinner, h, he, hp]

/-- Witness for C10 covering all four get_winner outcomes, including
both participants dead resolving to the player. -/
theorem C10_witness :
    combatOpen.getWinner = none ∧
    combatBothDead.getWinner = some .player ∧
    combatPlayerDead.getWinner = some .enemy ∧
    combatEndedEarly.getWinner = none :=
  ⟨(C10_getWinner_spec combatOpen).1 (by decide),
   ((C10_getWinner_spec combatBothDead).2 (by decide)).1 (by decide),
   ((C10_getWinner_spec combatPlayerDead).2 (by decide)).2.1 (by decide) (by decide),
   ((C10_getWinner_spec combatEndedEarly).2 (by decide)).2.2 (by decide) (by decide)⟩

/-- C6 (amended): the probabilities actually used by the dodge and
critical roll functions are capped at 0.75; the cap is applied inside
those functions only, so the values read through current_stats can
exceed 0.75 (see the counterexample). -/
theorem C6_roll_chances_capped (s : Entity) :
    s.dodgeChanceUsed ≤ 3/4 ∧ s.critChanceUsed ≤ 3/4 :=
  ⟨min_le_left _ _, min_le_left _ _⟩

/-- Counterexample to C6 as stated: after stacking one effect, the
dodge and critical chances read through current_stats are far above
0.75 (the application at attach time and the current_stats computation
each multiply by 101). -/
theorem C6_counterexample :
    (3/4 : ℚ) < buffedEntity.currentStats.dodge_chance ∧
    (3/4 : ℚ) < buffedEntity.currentStats.critical_chance := by
  have h : buffedEntity.currentStats.dodge_chance = 10201/20 ∧
      buffedEntity.currentStats.critical_chance = 10201/20 := by
    norm_num [buffedEntity, hero, Entity.addStatusEffect, StatusEffect.applyTo,
      Stats.modifyStat, statOfName, Stats.get, Stats.set, StatName.isMax,
      StatName.maxOf, Stats.defaults, Entity.currentStats]
  rw [h.1, h.2]
  norm_num

theorem maxOf_ne {sn mc : StatName} (h : sn.maxOf = some mc) : mc ≠ sn := by
  cases sn <;> simp [StatName.maxOf] at h <;> subst h <;> decide

/-- C3 (amended): after modify_stat, a max_ field is at least 1; a
non-max field with no max counterpart is at least 0; and a non-max
field whose max counterpart is non-negative ends between 0 and that
counterpart.  The always-including-construction part of the claim is
dropped: construction performs no clamping, see the counterexample. -/
theorem C3_modifyStat_clamps (st : Stats) (n : String) (sn : StatName)
    (v : ℚ) (p : Bool) (hn : statOfName n = some sn) :
    (sn.isMax = true → 1 ≤ (st.modifyStat n v p).get sn) ∧
    (sn.isMax = false → sn.maxOf = none → 0 ≤ (st.modifyStat n v p).get sn) ∧
    (sn.isMax = false → ∀ mc, sn.maxOf = some mc → 0 ≤ st.get mc →
      0 ≤ (st.modifyStat n v p).get sn ∧
      (st.modifyStat n v p).get sn ≤ (st.modifyStat n v p).get mc) := by
  refine ⟨?_, ?_, ?_⟩
  · intro hmax
    simp only [Stats.modifyStat, hn, hmax, if_true, Stats.get_set_self]
    exact le_max_left _ _
  · intro hmax hnone
    simp only [Stats.modifyStat, hn, hmax, hnone, Bool.false_eq_true, if_false,
      Stats.get_set_self]
    exact le_max_left _ _
  · intro hmax mc hmc hge
    have hne : mc ≠ sn := maxOf_ne hmc
    constructor
    · simp only [Stats.modifyStat, hn, hmax, hmc, Bool.false_eq_true, if_false,
        Stats.get_set_self]
      exact le_min (le_max_left _ _) hge
    · simp only [Stats.modifyStat, hn, hmax, hmc, Bool.false_eq_true, if_false,
        Stats.get_set_self, Stats.get_set_ne _ _ _ _ hne]
      exact min_le_right _ _

/-- Witness for C3 at concrete inputs: a max_ stat driven far below
zero is clamped to 1, and a non-max stat driven far below zero is
clamped into the interval from 0 to its max counterpart. -/
theorem C3_witness :
    (1 ≤ (Stats.defaults.modifyStat "max_health" (-500)).get .max_health) ∧
    (0 ≤ (Stats.defaults.modifyStat "health" (-500)).get .health ∧
     (Stats.defaults.modifyStat "health" (-500)).get .health ≤
       (Stats.defaults.modifyStat "health" (-500)).get .max_health) :=
  ⟨(C3_modifyStat_clamps Stats.defaults "max_health" .max_health (-500) false rfl).1 rfl,
   (C3_modifyStat_clamps Stats.defaults "health" .health (-500) false rfl).2.2 rfl
     .max_health rfl (by norm_num [Stats.defaults, Stats.get])⟩

/-- Counterexample to C3 as stated: the claim requires every max_ stat
to be at least 1 at all times including after construction, but the
default-constructed Stats dataclass already has max_mana = 0. -/
theorem C3_counterexample :
    Stats.defaults.max_mana = 0 ∧ ¬ (1 : ℚ) ≤ Stats.defaults.max_mana := by
  refine ⟨rfl, ?_⟩
  norm_num [Stats.defaults]

/-- C2 (amended): applying then removing an effect with a single
modifier m on a non-max stat multiplies the stat by (1 - m squared)
when no clamp saturates, because removal negates the percentage instead
of dividing by it; the pre-apply value is recovered only when m = 0 or
the stat was 0, not in general. -/
theorem C2_apply_remove_scales (st : Stats) (e : StatusEffect) (n : String)
    (sn : StatName) (m : ℚ)
    (hmods : e.stat_modifiers = [(n, m)])
    (hn : statOfName n = some sn) (hnm : sn.isMax = false)
    (h1 : 0 ≤ st.get sn * (1 + m))
    (h2 : ∀ mc, sn.maxOf = some mc → st.get sn * (1 + m) ≤ st.get mc)
    (h3 : 0 ≤ st.get sn * (1 + m) * (1 + -m))
    (h4 : ∀ mc, sn.maxOf = some mc → st.get sn * (1 + m) * (1 + -m) ≤ st.get mc) :
    (e.removeFrom (e.applyTo st)).get sn = st.get sn * (1 - m ^ 2) := by
  have happ : e.applyTo st = st.set sn (st.get sn * (1 + m)) := by
    cases hmo : sn.maxOf with
    | none =>
      simp [StatusEffect.applyTo, hmods, Stats.modifyStat, hn, hnm, hmo,
        max_eq_right h1]
    | some mc =>
      simp [StatusEffect.applyTo, hmods, Stats.modifyStat, hn, hnm, hmo,
        max_eq_right h1, min_eq_left (h2 mc hmo)]
  rw [happ]
  have hfinal : st.get sn * (1 + m) * (1 + -m) = st.get sn * (1 - m ^ 2) := by ring
  have h3' : 0 ≤ st.get sn * (1 - m ^ 2) := hfinal ▸ h3
  cases hmo : sn.maxOf with
  | none =>
    simp [StatusEffect.removeFrom, hmods, Stats.modifyStat, hn, hnm, hmo,
      Stats.get_set_self, hfinal, max_eq_right h3']
  | some mc =>
    have hne : mc ≠ sn := maxOf_ne hmo
    have h4' : st.get sn * (1 - m ^ 2) ≤ st.get mc := hfinal ▸ h4 mc hmo
    simp [StatusEffect.removeFrom, hmods, Stats.modifyStat, hn, hnm, hmo,
      Stats.get_set_self, Stats.get_set_ne _ _ _ _ hne,
      hfinal, max_eq_right h3', min_eq_left h4']

/-- Witness for C2 at a concrete input: strength 10, modifier one half,
ending at 7.5 = 10 times (1 - 1/4). -/
theorem C2_witness :
    (c2WitnessEffect.removeFrom (c2WitnessEffect.applyTo Stats.defaults)).get
      .strength = 10 * (1 - (1/2 : ℚ) ^ 2) :=
  C2_apply_remove_scales Stats.defaults c2WitnessEffect "strength" .strength (1/2)
    rfl rfl rfl
    (by norm_num [Stats.defaults, Stats.get])
    (by intro mc h; simp [StatName.maxOf] at h)
    (by norm_num [Stats.defaults, Stats.get])
    (by intro mc h; simp [StatName.maxOf] at h)

/-- Counterexample to C2 as stated: a plus-100-percent strength effect
applied then removed leaves strength at 0, not at its pre-apply value
10 (apply doubles to 20, remove multiplies by 1 - 1 = 0); no floating
tolerance covers a difference of 10. -/
theorem C2_counterexample :
    Stats.defaults.strength = 10 ∧
    (c2Effect.removeFrom (c2Effect.applyTo Stats.defaults)).strength = 0 := by
  refine ⟨rfl, ?_⟩
  norm_num [c2Effect, StatusEffect.removeFrom, StatusEffect.applyTo,
    Stats.modifyStat, statOfName, StatName.isMax, StatName.maxOf,
    Stats.get, Stats.set, Stats.defaults]

/-- C4 (amended): is_finished is exactly the disjunction of the two
death flags and a recorded end time, and a finished session's update
returns immediately without mutating anything; the action handlers are
not guarded the same way (see the counterexample, where an attack on a
finished session still mutates the enemy). -/
theorem C4_isFinished_iff_and_update_noop (c : CombatInstance) :
    (c.isFinished = true ↔
      (c.player.is_alive = false ∨ c.enemy.is_alive = false ∨
        c.end_time ≠ none)) ∧
    (c.isFinished = true → ∀ t, c.update t = (c, none)) := by
  constructor
  · simp [CombatInstance.isFinished, Bool.or_eq_true, Bool.not_eq_true',
      Option.isSome_iff_ne_none, or_assoc]
  · intro h t
    simp [CombatInstance.update, h]

/-- Witness for C4 at a concrete externally ended session. -/
theorem C4_witness :
    combatEndedEarly.isFinished = true ∧
    combatEndedEarly.update 7 = (combatEndedEarly, none) :=
  have h := C4_isFinished_iff_and_update_noop combatEndedEarly
  have hf : combatEndedEarly.isFinished = true :=
    h.1.mpr (Or.inr (Or.inr (by decide)))
  ⟨hf, h.2 hf 7⟩

/-- Counterexample to C4 as stated: the session below is finished
(end_time is set, both participants alive), yet the attack handler
still lowers the enemy's health from 100 to 95 before failing on the
missing combat_stats attribute. -/
theorem C4_counterexample :
    combatEndedEarly.isFinished = true ∧
    (combatEndedEarly.handlePlayerAttack (9/10)).1.enemy.stats.health ≠
      combatEndedEarly.enemy.stats.health := by
  refine ⟨by decide, ?_⟩
  have h1 : (combatEndedEarly.handlePlayerAttack (9/10)).1.enemy.stats.health = 95 := by
    norm_num [combatEndedEarly, mkCombat, hero, CombatInstance.handlePlayerAttack,
      Stats.defaults, max_def]
  have h2 : combatEndedEarly.enemy.stats.health = 100 := rfl
  rw [h1, h2]
  norm_num

/-- C9 evidence (code bug): the embedded attack handler evaluated at a
concrete non-critical attack with combo counter 2 reduces the enemy
health by the plain unboosted damage (100 to 95), leaves the combo
counter untouched at 2, and ends in the AttributeError raised by the
missing combat_stats attribute: the combo increment and the 1.2 damage
multiplication of the source sit below the health subtraction and the
crashing line, so they never affect the enemy's health. -/
theorem C9_attack_combo_never_applied :
    (c9Combat.handlePlayerAttack (9/10)).1.enemy.stats.health = 95 ∧
    (c9Combat.handlePlayerAttack (9/10)).1.player_status.combo_counter = 2 ∧
    (c9Combat.handlePlayerAttack (9/10)).2 =
      .exn "AttributeError: CombatInstance has no attribute combat_stats" := by
  refine ⟨?_, ?_, ?_⟩ <;>
    norm_num [c9Combat, mkCombat, hero, CombatInstance.handlePlayerAttack,
      Stats.defaults, max_def]

theorem rhe_ge_floor (x : ℚ) : ⌊x⌋ ≤ rhe x := by
  unfold rhe
  split_ifs <;> omega

theorem rhe_le_floor_add_one (x : ℚ) : rhe x ≤ ⌊x⌋ + 1 := by
  unfold rhe
  split_ifs <;> omega

theorem rhe_mono {x y : ℚ} (h : x ≤ y) : rhe x ≤ rhe y := by
  have hf : ⌊x⌋ ≤ ⌊y⌋ := Int.floor_mono h
  rcases lt_or_eq_of_le hf with hlt | heq
  · calc rhe x ≤ ⌊x⌋ + 1 := rhe_le_floor_add_one x
      _ ≤ ⌊y⌋ := by omega
      _ ≤ rhe y := rhe_ge_floor y
  · have hfr : Int.fract x ≤ Int.fract y := by
      simp only [Int.fract, heq]
      linarith
    unfold rhe
    rw [← heq]
    split_ifs <;> first | omega | linarith

theorem round1_mono {x y : ℚ} (h : x ≤ y) : round1 x ≤ round1 y := by
  unfold round1
  have h1 : rhe (10 * x) ≤ rhe (10 * y) := rhe_mono (by linarith)
  have h2 : (rhe (10 * x) : ℚ) ≤ (rhe (10 * y) : ℚ) := by exact_mod_cast h1
  linarith

theorem round1_nonneg {x : ℚ} (h : 0 ≤ x) : 0 ≤ round1 x := by
  unfold round1
  have h1 : (0 : ℤ) ≤ ⌊10 * x⌋ := Int.floor_nonneg.mpr (by linarith)
  have h2 : (0 : ℚ) ≤ (rhe (10 * x) : ℚ) := by
    exact_mod_cast le_trans h1 (rhe_ge_floor (10 * x))
  linarith

theorem foldPairs_defense (pairs : List (String × ℚ)) (st : Stats)
    (h : ∀ p ∈ pairs, statOfName p.1 ≠ some .defense) :
    (pairs.foldl (fun st2 p =>
      match statOfName p.1 with
      | some n => st2.set n (st2.get n * (1 + p.2))
      | none => st2) st).defense = st.defense := by
  induction pairs generalizing st with
  | nil => rfl
  | cons p ps ih =>
    simp only [List.foldl_cons]
    have hp := h p (List.mem_cons_self _ _)
    have hs : ∀ q ∈ ps, statOfName q.1 ≠ some .defense :=
      fun q hq => h q (List.mem_cons_of_mem _ hq)
    cases hk : statOfName p.1 with
    | none =>
      simp only [hk]
      exact ih _ hs
    | some n =>
      have hne : StatName.defense ≠ n := by
        intro hcontra
        exact hp (by rw [hk, hcontra])
      simp only [hk]
      rw [ih _ hs]
      exact Stats.get_set_ne st n .defense _ hne

theorem foldEffects_defense (effs : List StatusEffect) (st : Stats)
    (h : ∀ e ∈ effs, ∀ p ∈ e.stat_modifiers, statOfName p.1 ≠ some .defense) :
    (effs.foldl (fun st e =>
      e.stat_modifiers.foldl (fun st2 p =>
        match statOfName p.1 with
        | some n => st2.set n (st2.get n * (1 + p.2))
        | none => st2) st) st).defense = st.defense := by
  induction effs generalizing st with
  | nil => rfl
  | cons e es ih =>
    simp only [List.foldl_cons]
    have he := h e (List.mem_cons_self _ _)
    have hs : ∀ f ∈ es, ∀ p ∈ f.stat_modifiers, statOfName p.1 ≠ some .defense :=
      fun f hf => h f (List.mem_cons_of_mem _ hf)
    rw [ih _ hs]
    exact foldPairs_defense _ _ he

/-- With no effect modifier naming defense and no inventory, the
current_stats defense equals the base defense. -/
theorem currentStats_defense (s : Entity)
    (hE : ∀ e ∈ s.status_effects, ∀ p ∈ e.stat_modifiers,
      statOfName p.1 ≠ some .defense)
    (hI : s.inventory = none) :
    s.currentStats.defense = s.stats.defense := by
  unfold Entity.currentStats
  rw [hI]
  exact foldEffects_defense _ _ hE

theorem calculateDamage_defense_form (s : Entity) (base : ℚ) (dt : String)
    (d : ℚ)
    (hE : ∀ e ∈ s.status_effects, ∀ p ∈ e.stat_modifiers,
      statOfName p.1 ≠ some .defense)
    (hI : s.inventory = none) :
    Entity.calculateDamage { s with stats := { s.stats with defense := d } } base dt
      = round1 (max 0 (calcPre s base dt * (1 - d / (d + 100)))) := by
  unfold Entity.calculateDamage calcPre
  rw [currentStats_defense { s with stats := { s.stats with defense := d } } hE hI]

/-- The defense mitigation composed with the floor at zero and the
rounding is antitone in the defense for non-negative defense values,
whatever the sign of the pre-defense damage. -/
theorem damageFormula_antitone (P : ℚ) {d1 d2 : ℚ} (h0 : 0 ≤ d1) (h12 : d1 ≤ d2) :
    round1 (max 0 (P * (1 - d2 / (d2 + 100)))) ≤
    round1 (max 0 (P * (1 - d1 / (d1 + 100)))) := by
  have hd1 : (0 : ℚ) < d1 + 100 := by linarith
  have hd2 : (0 : ℚ) < d2 + 100 := by linarith
  have e1 : 1 - d1 / (d1 + 100) = 100 / (d1 + 100) := by field_simp
  have e2 : 1 - d2 / (d2 + 100) = 100 / (d2 + 100) := by field_simp
  rw [e1, e2]
  have hq : 100 / (d2 + 100) ≤ 100 / (d1 + 100) := by
    apply div_le_div_of_nonneg_left (by norm_num) hd1 (by linarith)
  rcases le_or_lt 0 P with hP | hP
  · apply round1_mono
    apply max_le_max (le_refl (0 : ℚ))
    exact mul_le_mul_of_nonneg_left hq hP
  · have hz1 : P * (100 / (d1 + 100)) ≤ 0 :=
      mul_nonpos_of_nonpos_of_nonneg (le_of_lt hP) (by positivity)
    have hz2 : P * (100 / (d2 + 100)) ≤ 0 :=
      mul_nonpos_of_nonpos_of_nonneg (le_of_lt hP) (by positivity)
    rw [max_eq_left hz1, max_eq_left hz2]

/-- C7 (amended): for fixed base damage, type, resistances and a set of
active effects not touching defense (and no equipment), raising the
actor's defense never increases _calculate_damage; the decrease is not
strict because the result is rounded to one decimal (see the
counterexample). -/
theorem C7_defense_antitone (s : Entity) (base : ℚ) (dt : String) (d1 d2 : ℚ)
    (hE : ∀ e ∈ s.status_effects, ∀ p ∈ e.stat_modifiers,
      statOfName p.1 ≠ some .defense)
    (hI : s.inventory = none)
    (h0 : 0 ≤ d1) (h12 : d1 ≤ d2) :
    Entity.calculateDamage { s with stats := { s.stats with defense := d2 } } base dt ≤
    Entity.calculateDamage { s with stats := { s.stats with defense := d1 } } base dt := by
  rw [calculateDamage_defense_form s base dt d2 hE hI,
    calculateDamage_defense_form s base dt d1 hE hI]
  exact damageFormula_antitone _ h0 h12

/-- Witness for C7 at concrete defenses 0 and 5 on the sample actor. -/
theorem C7_witness :
    Entity.calculateDamage { hero with stats := { hero.stats with defense := 5 } }
      50 "physical" ≤
    Entity.calculateDamage { hero with stats := { hero.stats with defense := 0 } }
      50 "physical" :=
  C7_defense_antitone hero 50 "physical" 0 5
    (by intro e he; simp [hero] at he)
    rfl (le_refl 0) (by norm_num)

/-- Counterexample to C7 as stated: defense 5.01 is strictly larger
than defense 5, yet both give exactly 47.6 damage from a base of 50
after the rounding to one decimal, so the decrease is not strict. -/
theorem C7_counterexample :
    (5 : ℚ) < 501/100 ∧
    Entity.calculateDamage { hero with stats := { hero.stats with defense := 501/100 } }
      50 "physical" =
    Entity.calculateDamage { hero with stats := { hero.stats with defense := 5 } }
      50 "physical" := by
  constructor
  · norm_num
  · have hform1 := calculateDamage_defense_form hero 50 "physical" (501/100)
      (by intro e he; simp [hero] at he) rfl
    have hform2 := calculateDamage_defense_form hero 50 "physical" 5
      (by intro e he; simp [hero] at he) rfl
    rw [hform1, hform2]
    have hv1 : calcPre hero 50 "physical" * (1 - (501/100 : ℚ) / (501/100 + 100))
        = 500000/10501 := by
      norm_num [calcPre, hero, lookupQ]
    have hv2 : calcPre hero 50 "physical" * (1 - (5 : ℚ) / (5 + 100))
        = 1000/21 := by
      norm_num [calcPre, hero, lookupQ]
    rw [hv1, hv2]
    rw [max_eq_right (by norm_num), max_eq_right (by norm_num)]
    have hf1 : ⌊(10 : ℚ) * (500000/10501)⌋ = 476 := by
      rw [Int.floor_eq_iff]
      norm_num
    have hf2 : ⌊(10 : ℚ) * (1000/21)⌋ = 476 := by
      rw [Int.floor_eq_iff]
      norm_num
    unfold round1 rhe
    rw [if_pos, if_pos, hf1, hf2]
    · rw [Int.fract, hf2]
      norm_num
    · rw [Int.fract, hf1]
      norm_num

/-- C8 (amended): when use_ability passes can_use_ability and the range
check and the primary single-target hit is then dodged, the call
returns failure with the stamina and mana cost already deducted and not
refunded, and no cooldown set.  When the target is out of ability
range, however, the call fails before the deduction and the resources
are untouched (see the counterexample). -/
theorem C8_dodge_costs_not_refunded (s tgt : Entity) (aid : String)
    (a : Ability) (now critRoll dodgeRoll : ℚ)
    (hfind : s.abilities.find? (fun p => p.1 == aid) = some (aid, a))
    (hcan : (s.canUseAbility aid now).1 = true)
    (hrange : s.isInAbilityRange tgt a = true)
    (hdmg : 0 < a.damage)
    (hs : s.is_alive = true) (ht : tgt.is_alive = true)
    (hdodge : tgt.tryDodge dodgeRoll = true) :
    ((s.useAbility aid (some tgt) now critRoll dodgeRoll).2.1 = false) ∧
    (s.useAbility aid (some tgt) now critRoll dodgeRoll).1.1.stats.stamina =
      s.stats.stamina - a.costStamina ∧
    (s.useAbility aid (some tgt) now critRoll dodgeRoll).1.1.stats.mana =
      s.stats.mana - a.costMana ∧
    (s.useAbility aid (some tgt) now critRoll dodgeRoll).1.1.cooldowns =
      s.cooldowns := by
  unfold Entity.useAbility Entity.dealDamage Entity.takeDamage
  simp only [hcan, hfind, hrange, hdmg, hs, ht, hdodge, Option.getD_some,
    Bool.true_eq_false, Bool.false_eq_true, if_false, if_true, decide_False,
    decide_True, Bool.or_self, Bool.or_false, Bool.false_or, ite_true, ite_false]
  refine ⟨?_, ?_, ?_, ?_⟩ <;> first | trivial | (split_ifs <;> rfl)

/-- Witness for C8 at a concrete dodged strike: the call fails, 30
stamina is gone, mana unchanged, no cooldown entry recorded. -/
theorem C8_witness :
    ((c8Caster.useAbility "strike" (some c8Target) 0 (9/10) 0).2.1 = false) ∧
    (c8Caster.useAbility "strike" (some c8Target) 0 (9/10) 0).1.1.stats.stamina =
      c8Caster.stats.stamina - c8Ability.costStamina ∧
    (c8Caster.useAbility "strike" (some c8Target) 0 (9/10) 0).1.1.stats.mana =
      c8Caster.stats.mana - c8Ability.costMana ∧
    (c8Caster.useAbility "strike" (some c8Target) 0 (9/10) 0).1.1.cooldowns =
      c8Caster.cooldowns :=
  C8_dodge_costs_not_refunded c8Caster c8Target "strike" c8Ability 0 (9/10) 0
    rfl
    (by norm_num [c8Caster, c8Ability, hero, Entity.canUseAbility,
      Entity.isOnCooldown, lookupQ, Entity.checkAbilityRequirements,
      Stats.defaults])
    (by norm_num [c8Caster, c8Target, c8Ability, hero, Entity.isInAbilityRange,
      Position.distSq])
    (by norm_num [c8Ability])
    rfl rfl
    (by norm_num [c8Target, Entity.tryDodge, Entity.dodgeChanceUsed,
      Entity.currentStats, Stats.defaults, min_def])

/-- Counterexample to C8 as stated: an out-of-range use_ability call
that passed can_use_ability fails with the out-of-range message and the
caster state completely unchanged, so no stamina or mana was deducted
for this failure mode (the range check precedes the deduction in the
source). -/
theorem C8_counterexample :
    (c8Caster.useAbility "strike" (some c8FarTarget) 0 (9/10) (9/10)).2 =
      (false, "Cel jest poza zasięgiem!", []) ∧
    (c8Caster.useAbility "strike" (some c8FarTarget) 0 (9/10) (9/10)).1.1 =
      c8Caster := by
  have hcan : (c8Caster.canUseAbility "strike" 0).1 = true := by
    norm_num [c8Caster, c8Ability, hero, Entity.canUseAbility,
      Entity.isOnCooldown, lookupQ, Entity.checkAbilityRequirements,
      Stats.defaults]
  have hrange : c8Caster.isInAbilityRange c8FarTarget c8Ability = false := by
    norm_num [c8Caster, c8FarTarget, c8Ability, hero, Entity.isInAbilityRange,
      Position.distSq]
  constructor <;>
    simp only [Entity.useAbility, hcan, Bool.true_eq_false, if_false,
      show c8Caster.abilities.find? (fun p => p.1 == "strike") =
        some ("strike", c8Ability) from rfl,
      Option.getD_some, hrange, ite_true, ite_false]

theorem foldl_preserve {β α : Type} (P : β → Prop) (f : β → α → β)
    (hf : ∀ st a, P st → P (f st a)) :
    ∀ (l : List α) (st : β), P st → P (l.foldl f st) := by
  intro l
  induction l with
  | nil => intro st h; exact h
  | cons a as ih =>
    intro st h
    exact ih _ (hf st a h)

theorem modifyStat_max_health_pos (st : Stats) (n : String) (v : ℚ) (p : Bool)
    (h : 0 < st.max_health) : 0 < (st.modifyStat n v p).max_health := by
  unfold Stats.modifyStat
  cases hk : statOfName n with
  | none => exact h
  | some sn =>
    cases sn <;>
      simp only [StatName.isMax, StatName.maxOf, Stats.set, Stats.get,
        if_true, if_false, Bool.true_eq_false, Bool.false_eq_true, ite_true,
        ite_false] <;>
      first
        | exact h
        | exact lt_of_lt_of_le zero_lt_one (le_max_left _ _)

theorem modifyStat_health_zero (st : Stats) (n : String) (v : ℚ)
    (hh : st.health = 0) (hm : 0 < st.max_health) :
    (st.modifyStat n v true).health = 0 := by
  unfold Stats.modifyStat
  cases hk : statOfName n with
  | none => exact hh
  | some sn =>
    cases sn <;>
      simp only [StatName.isMax, StatName.maxOf, Stats.set, Stats.get,
        if_true, if_false, Bool.true_eq_false, Bool.false_eq_true, ite_true,
        ite_false] <;>
      first
        | exact hh
        | (rw [hh]
           norm_num
           exact le_of_lt hm)

theorem applyTo_keeps (e : StatusEffect) (st : Stats)
    (h : 0 < st.max_health ∧ st.health = 0) :
    0 < (e.applyTo st).max_health ∧ (e.applyTo st).health = 0 := by
  refine foldl_preserve (fun x => 0 < x.max_health ∧ x.health = 0)
    (fun x p => x.modifyStat p.1 p.2 true) ?_ e.stat_modifiers st h
  intro x p hx
  exact ⟨modifyStat_max_health_pos x p.1 p.2 true hx.1,
    modifyStat_health_zero x p.1 p.2 hx.2 hx.1⟩

theorem removeFrom_keeps (e : StatusEffect) (st : Stats)
    (h : 0 < st.max_health ∧ st.health = 0) :
    0 < (e.removeFrom st).max_health ∧ (e.removeFrom st).health = 0 := by
  refine foldl_preserve (fun x => 0 < x.max_health ∧ x.health = 0)
    (fun x p => x.modifyStat p.1 (-p.2) true) ?_ e.stat_modifiers st h
  intro x p hx
  exact ⟨modifyStat_max_health_pos x p.1 (-p.2) true hx.1,
    modifyStat_health_zero x p.1 (-p.2) hx.2 hx.1⟩

theorem applyTo_max_health_pos (e : StatusEffect) (st : Stats)
    (h : 0 < st.max_health) : 0 < (e.applyTo st).max_health := by
  refine foldl_preserve (fun x => 0 < x.max_health)
    (fun x p => x.modifyStat p.1 p.2 true) ?_ e.stat_modifiers st h
  intro x p hx
  exact modifyStat_max_health_pos x p.1 p.2 true hx

theorem removeFrom_max_health_pos (e : StatusEffect) (st : Stats)
    (h : 0 < st.max_health) : 0 < (e.removeFrom st).max_health := by
  refine foldl_preserve (fun x => 0 < x.max_health)
    (fun x p => x.modifyStat p.1 (-p.2) true) ?_ e.stat_modifiers st h
  intro x p hx
  exact modifyStat_max_health_pos x p.1 (-p.2) true hx

theorem eraseFirst_mem {α : Type} [DecidableEq α] {l : List α} {a x : α}
    (h : x ∈ eraseFirst l a) : x ∈ l := by
  induction l with
  | nil => simp [eraseFirst] at h
  | cons b bs ih =>
    simp only [eraseFirst] at h
    split at h
    · exact List.mem_cons_of_mem _ h
    · rcases List.mem_cons.mp h with h1 | h1
      · exact h1 ▸ List.mem_cons_self _ _
      · exact List.mem_cons_of_mem _ (ih h1)

theorem replaceFirst_mem {α : Type} [DecidableEq α] {l : List α} {a b x : α}
    (h : x ∈ replaceFirst l a b) : x ∈ l ∨ x = b := by
  induction l with
  | nil => simp [replaceFirst] at h
  | cons c cs ih =>
    simp only [replaceFirst] at h
    split at h
    · rcases List.mem_cons.mp h with h1 | h1
      · exact Or.inr h1
      · exact Or.inl (List.mem_cons_of_mem _ h1)
    · rcases List.mem_cons.mp h with h1 | h1
      · exact Or.inl (h1 ▸ List.mem_cons_self _ _)
      · rcases ih h1 with h2 | h2
        · exact Or.inl (List.mem_cons_of_mem _ h2)
        · exact Or.inr h2

theorem listSet_mem {α : Type} {l : List α} {i : ℕ} {a x : α}
    (h : x ∈ l.set i a) : x ∈ l ∨ x = a := by
  induction l generalizing i with
  | nil => simp [List.set] at h
  | cons c cs ih =>
    cases i with
    | zero =>
      rcases List.mem_cons.mp h with h1 | h1
      · exact Or.inr h1
      · exact Or.inl (List.mem_cons_of_mem _ h1)
    | succ j =>
      rcases List.mem_cons.mp h with h1 | h1
      · exact Or.inl (h1 ▸ List.mem_cons_self _ _)
      · rcases ih h1 with h2 | h2
        · exact Or.inl (List.mem_cons_of_mem _ h2)
        · exact Or.inr h2

theorem stripStep_preserve (st : Entity) (e : StatusEffect)
    (h : 0 < st.stats.max_health ∧ st.stats.health = 0 ∧ st.is_alive = false ∧
      (∀ x ∈ st.status_effects, Safe x) ∧ st.inventory = none) :
    (0 < (if e.is_permanent then st else st.removeEffect e).stats.max_health ∧
     (if e.is_permanent then st else st.removeEffect e).stats.health = 0 ∧
     (if e.is_permanent then st else st.removeEffect e).is_alive = false ∧
     (∀ x ∈ (if e.is_permanent then st else st.removeEffect e).status_effects,
       Safe x) ∧
     (if e.is_permanent then st else st.removeEffect e).inventory = none) := by
  split
  · exact h
  · unfold Entity.removeEffect
    refine ⟨(removeFrom_keeps e st.stats ⟨h.1, h.2.1⟩).1,
      (removeFrom_keeps e st.stats ⟨h.1, h.2.1⟩).2, h.2.2.1, ?_, h.2.2.2.2⟩
    intro x hx
    exact h.2.2.2.1 x (eraseFirst_mem hx)

theorem stripFold_props (l : List StatusEffect) (st : Entity)
    (h : 0 < st.stats.max_health ∧ st.stats.health = 0 ∧ st.is_alive = false ∧
      (∀ x ∈ st.status_effects, Safe x) ∧ st.inventory = none) :
    0 < (l.foldl (fun st e => if e.is_permanent then st else st.removeEffect e)
        st).stats.max_health ∧
    (l.foldl (fun st e => if e.is_permanent then st else st.removeEffect e)
        st).stats.health = 0 ∧
    (l.foldl (fun st e => if e.is_permanent then st else st.removeEffect e)
        st).is_alive = false ∧
    (∀ x ∈ (l.foldl (fun st e => if e.is_permanent then st else st.removeEffect e)
        st).status_effects, Safe x) ∧
    (l.foldl (fun st e => if e.is_permanent then st else st.removeEffect e)
        st).inventory = none :=
  foldl_preserve
    (fun x : Entity => 0 < x.stats.max_health ∧ x.stats.health = 0 ∧
      x.is_alive = false ∧ (∀ e ∈ x.status_effects, Safe e) ∧
      x.inventory = none)
    (fun st e => if e.is_permanent then st else st.removeEffect e)
    (fun st e hx => stripStep_preserve st e hx) l st h

theorem die_props (s : Entity) (h : Wsafe s) :
    Wsafe s.die ∧ s.die.is_alive = false ∧ s.die.stats.health = 0 := by
  unfold Entity.die
  by_cases ha : s.is_alive = false
  · rw [if_pos ha]
    exact ⟨h, ha, h.2.1 ha⟩
  · have ha' : s.is_alive = true := by
      revert ha; cases s.is_alive <;> simp
    rw [if_neg ha]
    dsimp only
    have hf := stripFold_props s.status_effects
      { s with is_alive := false
               stats := { s.stats with health := 0 }
               combat_stats := { s.combat_stats with
                                 deaths := s.combat_stats.deaths + 1 } }
      ⟨h.1, rfl, rfl, h.2.2.1, h.2.2.2⟩
    exact ⟨⟨hf.1, fun _ => hf.2.1, hf.2.2.2.1, hf.2.2.2.2⟩, hf.2.2.1, hf.2.1⟩

theorem takeDamage_wsafe (s : Entity) (d : ℚ) (dt : String) (roll : ℚ)
    (h : Wsafe s) : Wsafe (s.takeDamage d dt roll).1 := by
  unfold Entity.takeDamage
  by_cases ha : s.is_alive = false
  · rw [if_pos ha]
    exact h
  · have ha' : s.is_alive = true := by
      revert ha; cases s.is_alive <;> simp
    rw [if_neg ha]
    by_cases hdg : s.tryDodge roll = true
    · rw [if_pos hdg]
      exact ⟨h.1, fun hd => h.2.1 hd, h.2.2.1, h.2.2.2⟩
    · rw [if_neg hdg]
      dsimp only
      split
      · exact (die_props
          { s with
            stats := { s.stats with
              health := max 0 (s.stats.health - s.calculateDamage d dt) }
            combat_stats := { s.combat_stats with
              damage_taken := s.combat_stats.damage_taken + s.calculateDamage d dt } }
          ⟨h.1, fun hd => absurd hd (by simp [ha']), h.2.2.1, h.2.2.2⟩).1
      · exact ⟨h.1, fun hd => absurd hd (by simp [ha']), h.2.2.1, h.2.2.2⟩

theorem heal_wsafe (s : Entity) (a : ℚ) (h : Wsafe s) : Wsafe (s.heal a).1 := by
  unfold Entity.heal
  by_cases ha : s.is_alive = false
  · rw [if_pos ha]
    exact h
  · have ha' : s.is_alive = true := by
      revert ha; cases s.is_alive <;> simp
    rw [if_neg ha]
    exact ⟨h.1, fun hd => absurd hd (by simp [ha']), h.2.2.1, h.2.2.2⟩

theorem applyEffectTick_wsafe (s : Entity) (e : StatusEffect) (rolls : List ℚ)
    (h : Wsafe s) (he : Safe e) :
    Wsafe (s.applyEffectTick e rolls).1 ∧
    (s.applyEffectTick e rolls).2.2 = none := by
  unfold Entity.applyEffectTick
  split
  · exact ⟨takeDamage_wsafe _ _ _ _ h, rfl⟩
  · split
    · exact ⟨heal_wsafe _ _ h, rfl⟩
    · split
      · next htype => exact absurd htype he.1
      · exact ⟨h, rfl⟩

theorem loop_wsafe (t : ℚ) :
    ∀ (fuel i : ℕ) (s : Entity) (acc : List StatusEffect) (rolls : List ℚ),
    Wsafe s → (∀ e ∈ acc, Safe e) →
    Wsafe (updateEffectsLoop t fuel i s acc rolls).1 ∧
    (∀ e ∈ (updateEffectsLoop t fuel i s acc rolls).2.1, Safe e) ∧
    (updateEffectsLoop t fuel i s acc rolls).2.2.2 = none := by
  intro fuel
  induction fuel with
  | zero =>
    intro i s acc rolls hs hacc
    exact ⟨hs, hacc, rfl⟩
  | succ f ih =>
    intro i s acc rolls hs hacc
    rw [updateEffectsLoop]
    by_cases hlen : i < s.status_effects.length
    · rw [dif_pos hlen]
      dsimp only
      set e := s.status_effects.get ⟨i, hlen⟩ with hedef
      have hSe : Safe e := by
        rw [hedef]
        exact hs.2.2.1 _ (s.status_effects.get_mem i hlen)
      by_cases hcond : (e.is_permanent || decide (0 < e.duration)) = true
      · rw [if_pos hcond]
        set e1 := if e.is_permanent = true then e
          else { e with duration := e.duration - 1 } with he1def
        have hSe1 : Safe e1 := by
          rw [he1def]
          split
          · exact hSe
          · exact hSe
        set s1 := { s with status_effects := s.status_effects.set i e1 } with hs1def
        have hws1 : Wsafe s1 := by
          rw [hs1def]
          exact ⟨hs.1, hs.2.1,
            fun x hx => (listSet_mem hx).elim (hs.2.2.1 x) (fun hxe => hxe ▸ hSe1),
            hs.2.2.2⟩
        split
        · next htick =>
          have htr := applyEffectTick_wsafe s1 e1 rolls hws1 hSe1
          rw [if_neg (by rw [htr.2]; simp)]
          refine ih (i + 1) _ _ _ ?_ ?_
          · refine ⟨htr.1.1, htr.1.2.1, ?_, htr.1.2.2.2⟩
            intro x hx
            rcases replaceFirst_mem hx with h1 | h1
            · exact htr.1.2.2.1 x h1
            · rw [h1]; exact hSe1
          · intro x hx
            rcases List.mem_append.mp hx with h1 | h1
            · exact hacc x h1
            · rw [List.mem_singleton.mp h1]; exact hSe1
        · next htick =>
          refine ih (i + 1) _ _ _ hws1 ?_
          intro x hx
          rcases List.mem_append.mp hx with h1 | h1
          · exact hacc x h1
          · rw [List.mem_singleton.mp h1]; exact hSe1
      · rw [if_neg hcond]
        refine ih (i + 1) _ _ _ ?_ hacc
        refine ⟨removeFrom_max_health_pos _ s.stats hs.1, ?_, hs.2.2.1, hs.2.2.2⟩
        intro hd
        exact (removeFrom_keeps _ s.stats ⟨hs.1, hs.2.1 hd⟩).2
    · rw [dif_neg hlen]
      exact ⟨hs, hacc, rfl⟩

theorem stripFold_core (l : List StatusEffect) (st : Entity)
    (h : 0 < st.stats.max_health ∧ st.stats.health = 0 ∧ st.is_alive = false) :
    0 < (l.foldl (fun st e => if e.is_permanent then st else st.removeEffect e)
        st).stats.max_health ∧
    (l.foldl (fun st e => if e.is_permanent then st else st.removeEffect e)
        st).stats.health = 0 ∧
    (l.foldl (fun st e => if e.is_permanent then st else st.removeEffect e)
        st).is_alive = false := by
  refine foldl_preserve
    (fun x : Entity => 0 < x.stats.max_health ∧ x.stats.health = 0 ∧
      x.is_alive = false)
    (fun st e => if e.is_permanent then st else st.removeEffect e) ?_ l st h
  intro x e hx
  dsimp only
  split
  · exact hx
  · exact ⟨(removeFrom_keeps e x.stats ⟨hx.1, hx.2.1⟩).1,
      (removeFrom_keeps e x.stats ⟨hx.1, hx.2.1⟩).2, hx.2.2⟩

theorem die_core (s : Entity) (hm : 0 < s.stats.max_health)
    (ha : s.is_alive = true) :
    s.die.is_alive = false ∧ s.die.stats.health = 0 := by
  unfold Entity.die
  rw [if_neg (by simp [ha])]
  dsimp only
  have hf := stripFold_core s.status_effects
    { s with is_alive := false
             stats := { s.stats with health := 0 }
             combat_stats := { s.combat_stats with
                               deaths := s.combat_stats.deaths + 1 } }
    ⟨hm, rfl, rfl⟩
  exact ⟨hf.2.2, hf.2.1⟩

theorem takeDamage_aliveInv (s : Entity) (d : ℚ) (dt : String) (roll : ℚ)
    (hm : 0 < s.stats.max_health) (hinv : AliveInv s) :
    AliveInv (s.takeDamage d dt roll).1 := by
  unfold Entity.takeDamage
  by_cases ha : s.is_alive = false
  · rw [if_pos ha]
    exact hinv
  · have ha' : s.is_alive = true := by
      revert ha; cases s.is_alive <;> simp
    rw [if_neg ha]
    by_cases hdg : s.tryDodge roll = true
    · rw [if_pos hdg]
      exact hinv
    · rw [if_neg hdg]
      dsimp only
      split
      · next hle =>
        have hd := die_core
          { s with
            stats := { s.stats with
              health := max 0 (s.stats.health - s.calculateDamage d dt) }
            combat_stats := { s.combat_stats with
              damage_taken := s.combat_stats.damage_taken + s.calculateDamage d dt } }
          hm ha'
        show _ = true ↔ _
        rw [hd.1, hd.2]
        simp
      · next hle =>
        exact iff_of_true ha' (not_le.mp hle)

theorem heal_aliveInv (s : Entity) (amount : ℚ) (hm : 0 < s.stats.max_health)
    (hinv : AliveInv s) (hpos : 0 ≤ amount * s.healingModifier) :
    AliveInv (s.heal amount).1 := by
  unfold Entity.heal
  by_cases ha : s.is_alive = false
  · rw [if_pos ha]
    exact hinv
  · have ha' : s.is_alive = true := by
      revert ha; cases s.is_alive <;> simp
    rw [if_neg ha]
    have hh := hinv.mpr.mt
    have hh0 : 0 < s.stats.health := hinv.mp ha'
    exact iff_of_true ha' (lt_min hm (by linarith))

theorem die_aliveInv (s : Entity) (hm : 0 < s.stats.max_health)
    (hinv : AliveInv s) : AliveInv s.die := by
  by_cases ha : s.is_alive = false
  · rw [show s.die = s from by unfold Entity.die; rw [if_pos ha]]
    exact hinv
  · have ha' : s.is_alive = true := by
      revert ha; cases s.is_alive <;> simp
    have hd := die_core s hm ha'
    show _ = true ↔ _
    rw [hd.1, hd.2]
    simp

theorem resurrect_aliveInv (s : Entity) (hm : 0 < s.stats.max_health)
    (hinv : AliveInv s) : AliveInv (s.resurrect (1/2)) := by
  unfold Entity.resurrect
  by_cases ha : s.is_alive = true
  · rw [if_pos ha]
    exact hinv
  · rw [if_neg ha]
    exact iff_of_true rfl (by positivity)

theorem updateStatusEffects_wsafe (s : Entity) (t : ℚ) (rolls : List ℚ)
    (h : Wsafe s) :
    Wsafe (s.updateStatusEffects t rolls).1 ∧
    (s.updateStatusEffects t rolls).2.2 = none := by
  unfold Entity.updateStatusEffects
  have hl := loop_wsafe t s.status_effects.length 0 s [] rolls h
    (by intro x hx; cases hx)
  rw [if_neg (by rw [hl.2.2]; simp)]
  exact ⟨⟨hl.1.1, hl.1.2.1, hl.2.1, hl.1.2.2.2⟩, rfl⟩

theorem updateResources_props (s : Entity) (h : Wsafe s) :
    Wsafe (s.updateResources).1 ∧ (s.updateResources).2 = none ∧
    (s.updateResources).1.stats.health = s.stats.health ∧
    (s.updateResources).1.is_alive = s.is_alive := by
  have hany : (s.status_effects.any fun e =>
      (lookupQ "regeneration" e.stat_modifiers).isSome) = false := by
    rw [List.any_eq_false]
    intro x hx
    rw [(h.2.2.1 x hx).2]
    simp
  have hreg : s.getRegenerationModifiers = some (1, 1, 1) := by
    unfold Entity.getRegenerationModifiers
    rw [if_neg (by rw [hany]; simp), h.2.2.2]
  unfold Entity.updateResources
  rw [hreg]
  dsimp only
  split <;> split <;>
    exact ⟨⟨h.1, h.2.1, h.2.2.1, h.2.2.2⟩, rfl, rfl, rfl⟩

theorem update_aliveInv (s : Entity) (hm : 0 < s.stats.max_health)
    (ha : s.is_alive = true) (hI : s.inventory = none)
    (hE : ∀ e ∈ s.status_effects, Safe e) (t : ℚ) (rolls : List ℚ) :
    AliveInv (s.update t rolls).1 := by
  have hws : Wsafe s := ⟨hm, fun hd => absurd hd (by simp [ha]), hE, hI⟩
  unfold Entity.update
  dsimp only
  have h1 := updateStatusEffects_wsafe s t rolls hws
  rw [if_neg (by rw [h1.2]; simp)]
  have h2 := updateResources_props (s.updateStatusEffects t rolls).1 h1.1
  rw [if_neg (by rw [h2.2.1]; simp)]
  dsimp only
  split
  · next hcond =>
    have hd := die_core _ h2.1.1 hcond.2
    show _ = true ↔ _
    rw [hd.1, hd.2]
    simp
  · next hcond =>
    by_cases hA : (s.updateStatusEffects t rolls).1.updateResources.1.is_alive = true
    · have hh : ¬ (s.updateStatusEffects t rolls).1.updateResources.1.stats.health ≤ 0 :=
        fun hh => hcond ⟨hh, hA⟩
      exact iff_of_true hA (not_le.mp hh)
    · have hAf : (s.updateStatusEffects t rolls).1.updateResources.1.is_alive = false := by
        revert hA
        cases (s.updateStatusEffects t rolls).1.updateResources.1.is_alive <;> simp
      have hh0 := h2.1.2.1 hAf
      show _ = true ↔ _
      rw [hAf, hh0]
      simp

/-- C1 (amended): for an actor with positive max_health on which the
invariant is_alive iff health positive holds beforehand, the invariant
holds after every take_damage, die, and resurrect (default fraction)
call; after every heal call whose effective healing amount (amount
times the healing modifier product) is non-negative; and, for a living
actor with no inventory and no resource_regen or regeneration-keyed
status effect, after every update call (at the state update has reached
when it raises its unconditional AttributeError for the undefined
_update_cooldowns method).  The excluded cases fail on the code: a
negative heal drives health below zero while the actor stays alive (see
the counterexample), a resource_regen effect can restore health to a
dead actor inside update, and a regeneration-keyed effect makes update
raise before its death check. -/
theorem C1_death_invariant (s : Entity) (hm : 0 < s.stats.max_health) :
    (AliveInv s → ∀ d dt roll, AliveInv (s.takeDamage d dt roll).1) ∧
    (AliveInv s → ∀ amount, 0 ≤ amount * s.healingModifier →
      AliveInv (s.heal amount).1) ∧
    (AliveInv s → AliveInv s.die) ∧
    (AliveInv s → AliveInv (s.resurrect (1/2))) ∧
    (s.is_alive = true → s.inventory = none →
      (∀ e ∈ s.status_effects, Safe e) →
      ∀ t rolls, AliveInv (s.update t rolls).1) :=
  ⟨fun hinv d dt roll => takeDamage_aliveInv s d dt roll hm hinv,
   fun hinv amount hpos => heal_aliveInv s amount hm hinv hpos,
   fun hinv => die_aliveInv s hm hinv,
   fun hinv => resurrect_aliveInv s hm hinv,
   fun ha hI hE t rolls => update_aliveInv s hm ha hI hE t rolls⟩

/-- Witness for C1 on the sample actor: the invariant after a concrete
hit, heal, death, resurrection and update step. -/
theorem C1_witness :
    AliveInv (hero.takeDamage 50 "physical" (9/10)).1 ∧
    AliveInv (hero.heal 30).1 ∧
    AliveInv hero.die ∧
    AliveInv (hero.resurrect (1/2)) ∧
    AliveInv (hero.update 1 []).1 :=
  have hm : 0 < hero.stats.max_health := by norm_num [hero, Stats.defaults]
  have hinv : AliveInv hero := by
    constructor
    · intro _
      norm_num [hero, Stats.defaults]
    · intro _
      rfl
  have h := C1_death_invariant hero hm
  ⟨h.1 hinv 50 "physical" (9/10),
   h.2.1 hinv 30 (by norm_num [hero, Entity.healingModifier]),
   h.2.2.1 hinv,
   h.2.2.2.1 hinv,
   h.2.2.2.2 rfl rfl (by intro e he; cases he) 1 []⟩

/-- Counterexample to C1 as stated: healing an alive actor at health 10
by the amount -20 leaves is_alive true with health -10, so after this
heal call is_alive does not equal (health > 0): heal has no lower
clamp and never triggers die(). -/
theorem C1_counterexample :
    (c1Actor.heal (-20)).1.is_alive = true ∧
    (c1Actor.heal (-20)).1.stats.health = -10 ∧
    ¬ ((c1Actor.heal (-20)).1.is_alive = true ↔
        0 < (c1Actor.heal (-20)).1.stats.health) := by
  have h1 : (c1Actor.heal (-20)).1.is_alive = true := by
    norm_num [c1Actor, hero, Entity.heal, Entity.healingModifier, Stats.defaults]
  have h2 : (c1Actor.heal (-20)).1.stats.health = -10 := by
    norm_num [c1Actor, hero, Entity.heal, Entity.healingModifier, Stats.defaults,
      min_def]
  refine ⟨h1, h2, ?_⟩
  rw [h1, h2]
  norm_num

end Gra
